import Mathlib

/-!
Verification of the visage visual-regression engine (src/visage.go).

The Go program is shallowly embedded: pure fragments become Lean
functions; effectful collaborators (URL parsing, the browser session,
the perceptual/content hash primitives, the filesystem) become explicit
inputs describing their outcomes, so every definition mirrors the data
and control flow of the corresponding Go function.
-/

namespace Visage

/- Constants from src/visage.go lines 26-41. -/

def ORGANISM_TYPE_DRAFT : String := "draft"

def ORGANISM_TYPE_FOUNDATION : String := "foundation"

def ORGANISM_TYPE_ATOM : String := "atom"

def ORGANISM_TYPE_MOLECULE : String := "molecule"

def ORGANISM_TYPE_ORGANISM : String := "organism"

def ORGANISM_TYPE_TEMPLATE : String := "template"

def ORGANISM_TYPE_PAGE : String := "page"

def REGRESSION_TEST_STATUS_CREATED : String := "created"

def REGRESSION_TEST_STATUS_FAILED : String := "failed"

def REGRESSION_TEST_STATUS_PASSED : String := "passed"

def REGRESSION_TEST_STATUS_SKIPPED : String := "skipped"

/-- `Story` from src/visage.go lines 49-54. -/
structure Story where
  Path : String
  Name : String
  OrganismType : String
  ComponentName : String
deriving Repr, DecidableEq

/-- `RegressionTest` from src/visage.go lines 62-69.  `TimeStamp` is an
`int64` in Go; a struct literal omitting it leaves the zero value `0`. -/
structure RegressionTest where
  Component : String
  Viewport : String
  DomHash : String
  StyleHash : String
  VisualHash : String
  TimeStamp : Int
deriving Repr, DecidableEq

/-- `RegressionTestResult` from src/visage.go lines 56-60. -/
structure RegressionTestResult where
  Status : String
  CurrentTest : RegressionTest
  ExpectedTest : RegressionTest
deriving Repr, DecidableEq

/-- `Config` from src/visage.go lines 71-75. -/
structure Config where
  BaseURL : String
  RootElement : String
  MaxThreads : Int
deriving Repr, DecidableEq

/-- The slice of a Go `net/url.URL` that `Story.Check` touches: whatever
`url.Parse` produced for the base URL, of which the code overwrites
`Path` and `RawQuery` (src/visage.go lines 103-109). -/
structure URL where
  SchemeHost : String
  Path : String
  RawQuery : String
deriving Repr, DecidableEq

/-- `Story.GetOrganismTypeString` from src/visage.go lines 77-96: the Go
`switch` on `s.OrganismType`. -/
def Story.GetOrganismTypeString (s : Story) : String :=
  if s.OrganismType = ORGANISM_TYPE_ATOM then "atoms"
  else if s.OrganismType = ORGANISM_TYPE_MOLECULE then "molecules"
  else if s.OrganismType = ORGANISM_TYPE_ORGANISM then "organisms"
  else if s.OrganismType = ORGANISM_TYPE_TEMPLATE then "templates"
  else if s.OrganismType = ORGANISM_TYPE_PAGE then "pages"
  else if s.OrganismType = ORGANISM_TYPE_FOUNDATION then "foundations"
  else if s.OrganismType = ORGANISM_TYPE_DRAFT then "drafts"
  else "drafts"

/-- Modelled from the spec: the external `camelcase.Split` dependency
(github.com/fatih/camelcase, not part of this repository) splits a story
name at camel-case boundaries.  We model a split before every uppercase
letter that follows a non-uppercase character. -/
def camelSplitChars : List Char → List (List Char)
  | [] => []
  | c :: rest =>
    match camelSplitChars rest with
    | [] => [[c]]
    | [] :: gs => [c] :: gs
    | (d :: g) :: gs =>
      if d.isUpper && !c.isUpper then [c] :: (d :: g) :: gs
      else (c :: d :: g) :: gs

/-- Modelled from the spec: `camelcase.Split` on strings. -/
def camelSplit (s : String) : List String :=
  (camelSplitChars s.toList).map fun cs => String.mk cs

/-- The URL construction of `Story.Check`, src/visage.go lines 103-109:
path set to `iframe.html` and the `RawQuery` produced by the
`fmt.Sprintf` format string
`globals=viewport:full&args=&id=%s-%s--%s&viewMode=story` applied to the
plural organism type, the lower-cased component name, and the
lower-cased hyphen-join of the camel-case-split story name. -/
def buildStoryURL (s : Story) (u : URL) : URL :=
  { u with
    Path := "iframe.html"
    RawQuery := "globals=viewport:full&args=&id=" ++ s.GetOrganismTypeString
      ++ "-" ++ s.ComponentName.toLower ++ "--"
      ++ (String.intercalate "-" (camelSplit s.Name)).toLower
      ++ "&viewMode=story" }

/-- Raw output of the browser task list of `Story.Check`: the bytes of
the screenshot and the two evaluated strings (src/visage.go
lines 113-135). -/
structure CaptureOutcome where
  screenshot : List Nat
  html : String
  style : String
deriving Repr, DecidableEq

/-- Outcomes the browser gives to each step of the `chromedp.Tasks` list
of src/visage.go lines 127-135, in order: navigate (a function of the
URL navigated to), wait-visible, wait-ready, the sleep, the screenshot,
the markup evaluation, the stylesheet evaluation. -/
structure BrowserSession where
  navigateRes : URL → Except String Unit
  waitVisibleRes : Except String Unit
  waitReadyRes : Except String Unit
  sleepRes : Except String Unit
  screenshotRes : Except String (List Nat)
  evalHtmlRes : Except String String
  evalCssRes : Except String String

/-- `chromedp.Run` over the task list of src/visage.go lines 127-135:
steps run in order, the first failing step aborts the run with its
error, and a fully successful run yields the three captured values. -/
def chromedpRun (u : URL) (b : BrowserSession) : Except String CaptureOutcome :=
  match b.navigateRes u with
  | .error e => .error e
  | .ok _ =>
  match b.waitVisibleRes with
  | .error e => .error e
  | .ok _ =>
  match b.waitReadyRes with
  | .error e => .error e
  | .ok _ =>
  match b.sleepRes with
  | .error e => .error e
  | .ok _ =>
  match b.screenshotRes with
  | .error e => .error e
  | .ok shot =>
  match b.evalHtmlRes with
  | .error e => .error e
  | .ok html =>
  match b.evalCssRes with
  | .error e => .error e
  | .ok style => .ok ⟨shot, html, style⟩

/-- `Story.Check`, src/visage.go lines 98-171.  The effectful
collaborators are explicit arguments: `urlParse` is the outcome of
`url.Parse` on the base URL, `b` the browser session's per-step
outcomes, `blockhashFn` the outcome of `blockhash.Blockhash` + `ToHex`
on the screenshot bytes, `sha1Fn`/`md5Fn` the content hashes of the
style and markup strings.  On success the code builds one
`RegressionTest` (its `TimeStamp` left at the Go zero value) and returns
a result with status `created` whose expected and current fingerprints
are the same value; no baseline is loaded from anywhere. -/
def Story.Check (s : Story) (config : Config)
    (urlParse : String → Except String URL)
    (b : BrowserSession)
    (blockhashFn : List Nat → Except String String)
    (sha1Fn md5Fn : String → String) :
    Except String RegressionTestResult :=
  match urlParse config.BaseURL with
  | .error e => .error e
  | .ok u0 =>
    match chromedpRun (buildStoryURL s u0) b with
    | .error e => .error e
    | .ok cap =>
      match blockhashFn cap.screenshot with
      | .error e => .error e
      | .ok visualHash =>
        let styleHash := sha1Fn cap.style
        let domHash := md5Fn cap.html
        let test : RegressionTest :=
          { Component := s.Name
            Viewport := "full"
            DomHash := domHash
            StyleHash := styleHash
            VisualHash := visualHash
            TimeStamp := 0 }
        .ok { Status := REGRESSION_TEST_STATUS_CREATED
              CurrentTest := test
              ExpectedTest := test }

/-- Go `strings.HasPrefix` on character lists (helper for
`containsSub`). -/
def startsWithChars : List Char → List Char → Bool
  | _, [] => true
  | [], _ :: _ => false
  | c :: cs, d :: ds => c = d && startsWithChars cs ds

/-- Go `strings.Contains` on character lists: `sub` occurs as a
contiguous substring of the first argument. -/
def containsSub : List Char → List Char → Bool
  | [], sub => startsWithChars [] sub
  | c :: cs, sub => startsWithChars (c :: cs) sub || containsSub cs sub

/-- Go `strings.Contains` on strings. -/
def goContains (s sub : String) : Bool :=
  containsSub s.toList sub.toList

/-- The category-inference chain of `GetAllStories`, src/visage.go
lines 373-389: an if/else-if chain of `strings.Contains` tests on the
file path, defaulting to the draft category. -/
def organismTypeOf (p : String) : String :=
  if goContains p "99-drafts" then ORGANISM_TYPE_DRAFT
  else if goContains p "00-foundations" then ORGANISM_TYPE_FOUNDATION
  else if goContains p "10-atoms" then ORGANISM_TYPE_ATOM
  else if goContains p "20-molecules" then ORGANISM_TYPE_MOLECULE
  else if goContains p "30-organisms" then ORGANISM_TYPE_ORGANISM
  else if goContains p "40-templates" then ORGANISM_TYPE_TEMPLATE
  else if goContains p "50-pages" then ORGANISM_TYPE_PAGE
  else ORGANISM_TYPE_DRAFT

/-- Modelled from the spec: the fixed ordered table of directory-name
markers and their categories ("a static ordered list of (marker,
category) pairs, tested in order"). -/
def categoryMarkerTable : List (String × String) :=
  [("99-drafts", ORGANISM_TYPE_DRAFT),
   ("00-foundations", ORGANISM_TYPE_FOUNDATION),
   ("10-atoms", ORGANISM_TYPE_ATOM),
   ("20-molecules", ORGANISM_TYPE_MOLECULE),
   ("30-organisms", ORGANISM_TYPE_ORGANISM),
   ("40-templates", ORGANISM_TYPE_TEMPLATE),
   ("50-pages", ORGANISM_TYPE_PAGE)]

/-- Modelled from the spec: category inference as "first recognized
marker in priority order wins; no marker means draft, never an
error". -/
def categoryOfSpec (p : String) : String :=
  match categoryMarkerTable.find? fun m => goContains p m.1 with
  | some m => m.2
  | none => ORGANISM_TYPE_DRAFT

/-- Go `strings.Split` with a one-character separator, on character
lists.  `strings.Split` never returns an empty slice: splitting the
empty string yields one empty field. -/
def goSplitChar (sep : Char) : List Char → List (List Char)
  | [] => [[]]
  | c :: rest =>
    match goSplitChar sep rest with
    | [] => [[]]
    | h :: t => if c = sep then [] :: h :: t else (c :: h) :: t

/-- The component-name derivation of `GetAllStories`, src/visage.go
lines 358-368: split the path on `/`, guard `len(parts) <= 0`, take the
last part, split it on `.`, guard `len(fileParts) <= 0`, and take the
first piece. -/
def componentNameOf (p : String) : Except String String :=
  let parts := goSplitChar '/' p.toList
  if parts.length ≤ 0 then .error ("invalid path: " ++ p)
  else
    let lastPart := parts.getLastD []
    let fileParts := goSplitChar '.' lastPart
    if fileParts.length ≤ 0 then
      .error ("invalid file name: " ++ String.mk lastPart)
    else .ok (String.mk (fileParts.headD []))

/-- The built-in ignore list of `GetIgnoreFiles`, src/visage.go
lines 238-252. -/
def builtinIgnoreFiles : List String :=
  ["patches", "node_modules", ".DS_Store", ".idea", ".vscode", "dist",
   "build", "coverage", "out", "tmp", "temp", "*.log", "*.tmp"]

/-- The `.gitignore` line filter of `GetIgnoreFiles`, src/visage.go
lines 277-281: split the file content on newlines and keep lines that
are non-empty and do not start with `#`. -/
def parseIgnoreLines (content : String) : List String :=
  (content.splitOn "\n").filter fun line => line != "" && line.front != '#'

/-- `GetIgnoreFiles`, src/visage.go lines 237-296.  The filesystem is
explicit: `rootGitignore` is the content of `<path>/.gitignore` when
that file exists, `parentGitignore` the content of
`<path>/../.gitignore` when it exists.  When neither exists the
built-in list is returned as is; otherwise the kept lines of the chosen
file are appended to the built-in list and the merge is de-duplicated
(the Go code rebuilds the slice from a set, so only the resulting set
of tokens is meaningful, not its order). -/
def GetIgnoreFiles (rootGitignore parentGitignore : Option String) :
    List String :=
  match rootGitignore with
  | some c => (builtinIgnoreFiles ++ parseIgnoreLines c).dedup
  | none =>
    match parentGitignore with
    | some c => (builtinIgnoreFiles ++ parseIgnoreLines c).dedup
    | none => builtinIgnoreFiles

/-- Modelled from the spec: the comparator state machine of §4.5 for a
story whose capture succeeded — no baseline means `created`; a baseline
whose three hashes all equal the current fingerprint's means `passed`;
a baseline with any hash differing means `failed`. -/
def comparatorStatus (baseline : Option RegressionTest)
    (current : RegressionTest) : String :=
  match baseline with
  | none => REGRESSION_TEST_STATUS_CREATED
  | some b =>
    if b.VisualHash = current.VisualHash ∧ b.DomHash = current.DomHash
        ∧ b.StyleHash = current.StyleHash then
      REGRESSION_TEST_STATUS_PASSED
    else REGRESSION_TEST_STATUS_FAILED

/-- Modelled from the spec: the error of the first failing stage of one
story's capture (the six browser steps of §4.2 followed by the
perceptual-hash decoding), `none` when every stage succeeded. -/
def firstCaptureError (u : URL) (b : BrowserSession)
    (blockhashFn : List Nat → Except String String) : Option String :=
  match b.navigateRes u with
  | .error e => some e
  | .ok _ =>
  match b.waitVisibleRes with
  | .error e => some e
  | .ok _ =>
  match b.waitReadyRes with
  | .error e => some e
  | .ok _ =>
  match b.sleepRes with
  | .error e => some e
  | .ok _ =>
  match b.screenshotRes with
  | .error e => some e
  | .ok shot =>
  match b.evalHtmlRes with
  | .error e => some e
  | .ok _ =>
  match b.evalCssRes with
  | .error e => some e
  | .ok _ =>
  match blockhashFn shot with
  | .error e => some e
  | .ok _ => none

/- Orchestrator (`Config.Check`, src/visage.go lines 408-470). -/

/-- The failure modes of `Config.Check`: a discovery error from
`GetAllStories`, the missing `package.json` manifest, or the single
aggregate error built from every collected per-story error
(src/visage.go line 466). -/
inductive CheckError where
  | discovery (e : String)
  | missingManifest (path : String)
  | aggregate (errs : List String)
deriving Repr, DecidableEq

/-- Draining the `results` channel, src/visage.go lines 455-458: the
successful outcomes, in arrival order. -/
def collectResults (outs : List (Except String RegressionTestResult)) :
    List RegressionTestResult :=
  outs.filterMap fun o =>
    match o with
    | .ok r => some r
    | .error _ => none

/-- Draining the `errors` channel, src/visage.go lines 460-463: the
per-story errors, in arrival order. -/
def collectErrors (outs : List (Except String RegressionTestResult)) :
    List String :=
  outs.filterMap fun o =>
    match o with
    | .ok _ => none
    | .error e => some e

/-- `Config.Check`, src/visage.go lines 408-470.  `storiesRes` is the
outcome of `GetAllStories`, `packageJsonExists` the manifest presence
check, and `outs` the per-story outcomes in the order they arrive on
the result/error channels — `wg.Wait()` guarantees one outcome per
story before the channels are drained, so `outs` has one entry per
discovered story.  If any story errored, a single aggregate error
carrying all collected errors is returned and the successes are
discarded; otherwise the full result list is returned. -/
def Config.Check (storiesRes : Except String (List Story))
    (packageJsonExists : Bool)
    (outs : List (Except String RegressionTestResult)) :
    Except CheckError (List RegressionTestResult) :=
  match storiesRes with
  | .error e => .error (.discovery e)
  | .ok _stories =>
    if packageJsonExists = false then
      .error (.missingManifest "package.json")
    else if 0 < (collectErrors outs).length then
      .error (.aggregate (collectErrors outs))
    else .ok (collectResults outs)

/-- The events of one worker goroutine of `Config.Check`,
src/visage.go lines 428-448. -/
inductive WorkerEvent where
  | acquireSem
  | allocContext
  | newContext
  | withTimeout
  | runCheck
  | releaseSem
  | cancelTimeout
  | cancelContext
  | cancelAlloc
deriving Repr, DecidableEq

/-- The event order of one worker goroutine, src/visage.go
lines 428-448: the semaphore is acquired, the exec allocator and
browser context are created (their `cancel`s deferred), the timeout
context is created (its cancel deferred), the story is checked, the
semaphore is released by the last statement of the body (`<-sem`,
line 447), and only then do the deferred cancels run in LIFO order,
tearing down the timeout, the browser context, and the allocator. -/
def workerTrace : List WorkerEvent :=
  [.acquireSem, .allocContext, .newContext, .withTimeout, .runCheck,
   .releaseSem, .cancelTimeout, .cancelContext, .cancelAlloc]

/- Concrete sample inputs used to instantiate the theorems below. -/

def sampleStory : Story := ⟨"p", "MyStory", "atom", "Button"⟩

def sampleConfig : Config := ⟨"http://x", "#root", 4⟩

def sampleURL : URL := ⟨"http://x", "", ""⟩

def sampleParse : String → Except String URL := fun _ => .ok sampleURL

def sampleSession : BrowserSession :=
  ⟨fun _ => .ok (), .ok (), .ok (), .ok (), .ok [1, 2], .ok "<div/>",
   .ok "body\x7b\x7d"⟩

def sampleFailSession : BrowserSession :=
  ⟨fun _ => .error "nav failed", .ok (), .ok (), .ok (), .ok [1, 2],
   .ok "<div/>", .ok "body\x7b\x7d"⟩

def sampleBlockhash : List Nat → Except String String := fun _ => .ok "vh"

def sampleSha1 : String → String := fun _ => "s1"

def sampleMd5 : String → String := fun _ => "m5"

def sampleTest : RegressionTest := ⟨"MyStory", "full", "m5", "s1", "vh", 0⟩

def sampleResult : RegressionTestResult :=
  ⟨REGRESSION_TEST_STATUS_CREATED, sampleTest, sampleTest⟩

/- Theorems. -/

/-- Helper: every successful `Story.Check` returns the literal result of
src/visage.go lines 156-170 — status `created`, expected fingerprint
identical to the current one, timestamp left at zero, component set to
the story name and viewport to `full`. -/
theorem storyCheck_ok_shape {s : Story} {config : Config}
    {urlParse : String → Except String URL} {b : BrowserSession}
    {bh : List Nat → Except String String} {sha1Fn md5Fn : String → String}
    {r : RegressionTestResult}
    (h : Story.Check s config urlParse b bh sha1Fn md5Fn = .ok r) :
    r.Status = REGRESSION_TEST_STATUS_CREATED ∧ r.ExpectedTest = r.CurrentTest
    ∧ r.CurrentTest.TimeStamp = 0 ∧ r.CurrentTest.Component = s.Name
    ∧ r.CurrentTest.Viewport = "full" := by
  unfold Story.Check at h
  split at h
  · exact absurd h (by simp)
  · split at h
    · exact absurd h (by simp)
    · split at h
      · exact absurd h (by simp)
      · simp only [Except.ok.injEq] at h
        subst h
        exact ⟨rfl, rfl, rfl, rfl, rfl⟩

/-- C2: every `RegressionTestResult` that `Story.Check` returns
successfully has status `created` and an `ExpectedTest` baseline equal,
as a structure value, to `CurrentTest`; the embedding of `Story.Check`
takes no baseline input at all, mirroring that the code never loads
one. -/
theorem storyCheck_always_created (s : Story) (config : Config)
    (urlParse : String → Except String URL) (b : BrowserSession)
    (bh : List Nat → Except String String) (sha1Fn md5Fn : String → String)
    (r : RegressionTestResult)
    (h : Story.Check s config urlParse b bh sha1Fn md5Fn = .ok r) :
    r.Status = REGRESSION_TEST_STATUS_CREATED
    ∧ r.ExpectedTest = r.CurrentTest :=
  ⟨(storyCheck_ok_shape h).1, (storyCheck_ok_shape h).2.1⟩

/-- Witness for C2 at a concrete story, config and browser session. -/
theorem storyCheck_always_created_witness :
    sampleResult.Status = REGRESSION_TEST_STATUS_CREATED
    ∧ sampleResult.ExpectedTest = sampleResult.CurrentTest :=
  storyCheck_always_created sampleStory sampleConfig sampleParse
    sampleSession sampleBlockhash sampleSha1 sampleMd5 sampleResult rfl

/-- C1: a successful `Story.Check` result satisfies the spec's
comparator state machine relative to the baseline the run actually had,
namely none — the code loads no baseline, so the machine's first arm
applies and the status is `created`; the `passed`/`failed` arms are
never exercised. -/
theorem storyCheck_follows_comparator (s : Story) (config : Config)
    (urlParse : String → Except String URL) (b : BrowserSession)
    (bh : List Nat → Except String String) (sha1Fn md5Fn : String → String)
    (r : RegressionTestResult)
    (h : Story.Check s config urlParse b bh sha1Fn md5Fn = .ok r) :
    r.Status = comparatorStatus none r.CurrentTest :=
  (storyCheck_ok_shape h).1

/-- Witness for C1 at a concrete story, config and browser session. -/
theorem storyCheck_follows_comparator_witness :
    sampleResult.Status = comparatorStatus none sampleResult.CurrentTest :=
  storyCheck_follows_comparator sampleStory sampleConfig sampleParse
    sampleSession sampleBlockhash sampleSha1 sampleMd5 sampleResult rfl

/-- C9: both fingerprints of every result `Story.Check` produces carry
a zero `TimeStamp` — the Go struct literal never sets the field. -/
theorem storyCheck_timestamp_zero (s : Story) (config : Config)
    (urlParse : String → Except String URL) (b : BrowserSession)
    (bh : List Nat → Except String String) (sha1Fn md5Fn : String → String)
    (r : RegressionTestResult)
    (h : Story.Check s config urlParse b bh sha1Fn md5Fn = .ok r) :
    r.CurrentTest.TimeStamp = 0 ∧ r.ExpectedTest.TimeStamp = 0 := by
  obtain ⟨-, hexp, hts, -, -⟩ := storyCheck_ok_shape h
  exact ⟨hts, by rw [hexp]; exact hts⟩

/-- Witness for C9 at a concrete story, config and browser session. -/
theorem storyCheck_timestamp_zero_witness :
    sampleResult.CurrentTest.TimeStamp = 0
    ∧ sampleResult.ExpectedTest.TimeStamp = 0 :=
  storyCheck_timestamp_zero sampleStory sampleConfig sampleParse
    sampleSession sampleBlockhash sampleSha1 sampleMd5 sampleResult rfl

/-- Helper: the first failing stage of a capture is the first failing
step of the browser task list, or else the perceptual-hash decoding of
the captured screenshot. -/
theorem firstCaptureError_eq_run (u : URL) (b : BrowserSession)
    (bh : List Nat → Except String String) :
    firstCaptureError u b bh =
      match chromedpRun u b with
      | .error e => some e
      | .ok cap =>
        match bh cap.screenshot with
        | .error e => some e
        | .ok _ => none := by
  unfold firstCaptureError chromedpRun
  rcases b.navigateRes u with e | x <;> simp
  rcases b.waitVisibleRes with e | x <;> simp
  rcases b.waitReadyRes with e | x <;> simp
  rcases b.sleepRes with e | x <;> simp
  rcases b.screenshotRes with e | shot <;> simp
  rcases b.evalHtmlRes with e | html <;> simp
  rcases b.evalCssRes with e | style <;> simp

/-- C5: once the base URL parsed, `Story.Check` returns an error exactly
when some capture stage failed — the error returned is the first failing
stage's own error (and since the return type is `Except`, an error
excludes any partial result). -/
theorem storyCheck_error_iff_first_failure (s : Story) (config : Config)
    (urlParse : String → Except String URL) (b : BrowserSession)
    (bh : List Nat → Except String String) (sha1Fn md5Fn : String → String)
    (u : URL) (e : String)
    (hu : urlParse config.BaseURL = .ok u) :
    Story.Check s config urlParse b bh sha1Fn md5Fn = .error e
      ↔ firstCaptureError (buildStoryURL s u) b bh = some e := by
  rw [firstCaptureError_eq_run]
  unfold Story.Check
  rw [hu]
  cases h1 : chromedpRun (buildStoryURL s u) b with
  | error e1 => simp [h1]
  | ok cap =>
    cases h2 : bh cap.screenshot with
    | error e2 => simp [h1, h2]
    | ok vh => simp [h1, h2]

/-- Witness for C5 at a concrete session whose navigation step fails. -/
theorem storyCheck_error_iff_first_failure_witness :
    Story.Check sampleStory sampleConfig sampleParse sampleFailSession
        sampleBlockhash sampleSha1 sampleMd5 = .error "nav failed"
      ↔ firstCaptureError (buildStoryURL sampleStory sampleURL)
          sampleFailSession sampleBlockhash = some "nav failed" :=
  storyCheck_error_iff_first_failure sampleStory sampleConfig sampleParse
    sampleFailSession sampleBlockhash sampleSha1 sampleMd5 sampleURL
    "nav failed" rfl

/-- Helper: the error channel is empty exactly when every per-story
outcome was a success. -/
theorem collectErrors_eq_nil_iff
    (outs : List (Except String RegressionTestResult)) :
    collectErrors outs = [] ↔ ∀ o ∈ outs, ∃ r, o = Except.ok r := by
  unfold collectErrors
  rw [List.filterMap_eq_nil_iff]
  constructor
  · intro h o ho
    have := h o ho
    cases o with
    | error e => simp at this
    | ok r => exact ⟨r, rfl⟩
  · intro h o ho
    obtain ⟨r, hr⟩ := h o ho
    subst hr
    rfl

/-- Helper: when every outcome succeeded, the result channel holds one
result per story outcome. -/
theorem collectResults_length_all_ok
    (outs : List (Except String RegressionTestResult))
    (h : ∀ o ∈ outs, ∃ r, o = Except.ok r) :
    (collectResults outs).length = outs.length := by
  induction outs with
  | nil => rfl
  | cons o os ih =>
    obtain ⟨r, hr⟩ := h o (by simp)
    subst hr
    simp only [collectResults, List.filterMap_cons, List.length_cons]
    rw [← collectResults]
    rw [ih fun o ho => h o (List.mem_cons_of_mem _ ho)]

/-- C3: the aggregation policy of `Config.Check` once discovery
succeeded and the manifest is present, for the per-story outcomes of a
catalog of `stories` (one outcome per story, as `wg.Wait()` guarantees):
if any story errored, the return value is the single aggregate error
carrying every collected per-story error and no result list; if none
errored, it is the full result list — one entry per story — with no
error; and a run over zero stories returns the empty list and no
error. -/
theorem configCheck_aggregation (stories : List Story)
    (outs : List (Except String RegressionTestResult))
    (hN : outs.length = stories.length) :
    ((∃ e, Except.error e ∈ outs) →
        Config.Check (.ok stories) true outs
          = .error (.aggregate (collectErrors outs)))
    ∧ ((∀ o ∈ outs, ∃ r, o = Except.ok r) →
        Config.Check (.ok stories) true outs = .ok (collectResults outs)
        ∧ (collectResults outs).length = stories.length)
    ∧ (stories = [] → Config.Check (.ok stories) true outs = .ok []) := by
  refine ⟨?_, ?_, ?_⟩
  · rintro ⟨e, he⟩
    have hmem : e ∈ collectErrors outs := by
      unfold collectErrors
      exact List.mem_filterMap.mpr ⟨Except.error e, he, rfl⟩
    have hpos : 0 < (collectErrors outs).length :=
      List.length_pos.mpr (List.ne_nil_of_mem hmem)
    simp [Config.Check, hpos]
  · intro h
    have hnil : collectErrors outs = [] := (collectErrors_eq_nil_iff outs).mpr h
    constructor
    · simp [Config.Check, hnil]
    · rw [collectResults_length_all_ok outs h, hN]
  · intro hs
    subst hs
    have houts : outs = [] := List.eq_nil_of_length_eq_zero hN
    subst houts
    simp [Config.Check, collectErrors, collectResults]

/-- Witness for C3 at a one-story catalog with a successful outcome. -/
theorem configCheck_aggregation_witness :
    ((∃ e, Except.error e ∈ [Except.ok (ε := String) sampleResult]) →
        Config.Check (.ok [sampleStory]) true [Except.ok sampleResult]
          = .error (.aggregate (collectErrors [Except.ok sampleResult])))
    ∧ ((∀ o ∈ [Except.ok (ε := String) sampleResult], ∃ r, o = Except.ok r) →
        Config.Check (.ok [sampleStory]) true [Except.ok sampleResult]
          = .ok (collectResults [Except.ok sampleResult])
        ∧ (collectResults [Except.ok sampleResult]).length
            = [sampleStory].length)
    ∧ ([sampleStory] = [] →
        Config.Check (.ok [sampleStory]) true [Except.ok sampleResult]
          = .ok []) :=
  configCheck_aggregation [sampleStory] [Except.ok sampleResult] rfl

/-- Counterexample for C4: in the worker trace of src/visage.go
lines 428-448 the semaphore permit is NOT released only after the
browser context is torn down — the claim's conjunction (acquire before
allocation, and teardown of the context before release) is false,
because `<-sem` is the last statement of the goroutine body while the
deferred `cancelCtx` runs after the body returns. -/
theorem workerTrace_not_release_after_teardown :
    ¬ (workerTrace.indexOf WorkerEvent.acquireSem
          < workerTrace.indexOf WorkerEvent.allocContext
       ∧ workerTrace.indexOf WorkerEvent.cancelContext
          < workerTrace.indexOf WorkerEvent.releaseSem) := by
  decide

/-- C4 (amended): the permit is acquired before the browser allocator
and context are created, and held across the whole capture, but it is
released by the last statement of the goroutine body, before the
deferred teardown of the timeout, the browser context and the
allocator run — so the ceiling bounds concurrent captures while a
successor's context may be allocated during a predecessor's
teardown. -/
theorem workerTrace_permit_ordering :
    workerTrace.indexOf WorkerEvent.acquireSem
        < workerTrace.indexOf WorkerEvent.allocContext
    ∧ workerTrace.indexOf WorkerEvent.allocContext
        < workerTrace.indexOf WorkerEvent.newContext
    ∧ workerTrace.indexOf WorkerEvent.runCheck
        < workerTrace.indexOf WorkerEvent.releaseSem
    ∧ workerTrace.indexOf WorkerEvent.releaseSem
        < workerTrace.indexOf WorkerEvent.cancelTimeout
    ∧ workerTrace.indexOf WorkerEvent.cancelTimeout
        < workerTrace.indexOf WorkerEvent.cancelContext
    ∧ workerTrace.indexOf WorkerEvent.cancelContext
        < workerTrace.indexOf WorkerEvent.cancelAlloc := by
  decide

/-- C6: the category-inference chain of `GetAllStories` computes, for
every path, exactly the first matching (marker, category) entry of the
fixed priority table, defaulting to draft when no marker occurs — and
it is a total function, so discovery never fails on classification. -/
theorem organismType_first_marker_wins (p : String) :
    organismTypeOf p = categoryOfSpec p := by
  unfold organismTypeOf categoryOfSpec categoryMarkerTable
  cases h1 : goContains p "99-drafts" <;>
    cases h2 : goContains p "00-foundations" <;>
      cases h3 : goContains p "10-atoms" <;>
        cases h4 : goContains p "20-molecules" <;>
          cases h5 : goContains p "30-organisms" <;>
            cases h6 : goContains p "40-templates" <;>
              cases h7 : goContains p "50-pages" <;>
                simp [List.find?, h1, h2, h3, h4, h5, h6, h7]

/-- C7: the ignore-token set of discovery.  When a `.gitignore` exists
at the root (or, failing that, at its parent), the returned tokens are
exactly the built-in list merged with that file's kept lines, without
duplicates; a kept line is precisely a line of the file that is
non-empty and does not start with `#`; and when neither file exists the
built-in list alone is returned. -/
theorem getIgnoreFiles_merged_set (c c2 : String) (g : Option String) :
    (∀ x, x ∈ GetIgnoreFiles (some c) g
        ↔ x ∈ builtinIgnoreFiles ∨ x ∈ parseIgnoreLines c)
    ∧ (∀ x, x ∈ GetIgnoreFiles none (some c2)
        ↔ x ∈ builtinIgnoreFiles ∨ x ∈ parseIgnoreLines c2)
    ∧ GetIgnoreFiles none none = builtinIgnoreFiles
    ∧ (GetIgnoreFiles (some c) g).Nodup
    ∧ (GetIgnoreFiles none (some c2)).Nodup
    ∧ (GetIgnoreFiles none none).Nodup
    ∧ (∀ l, l ∈ parseIgnoreLines c
        ↔ l ∈ c.splitOn "\n" ∧ l ≠ "" ∧ l.front ≠ '#') := by
  refine ⟨?_, ?_, rfl, ?_, ?_, ?_, ?_⟩
  · intro x
    simp [GetIgnoreFiles, List.mem_dedup]
  · intro x
    simp [GetIgnoreFiles, List.mem_dedup]
  · exact List.nodup_dedup _
  · exact List.nodup_dedup _
  · decide
  · intro l
    simp [parseIgnoreLines, List.mem_filter, and_assoc]

/-- C8: the navigation URL `Story.Check` builds keeps the parsed base
URL and replaces its path by `iframe.html` and its query by the
deterministic story query: the `viewport:full` global, an `id` equal to
the plural organism-category string, then the lower-cased component
name, then the lower-cased hyphen-join of the camel-case-split story
name, and `viewMode=story`. -/
theorem storyCheck_navigation_url (s : Story) (u0 : URL) :
    (buildStoryURL s u0).SchemeHost = u0.SchemeHost
    ∧ (buildStoryURL s u0).Path = "iframe.html"
    ∧ (buildStoryURL s u0).RawQuery =
        "globals=viewport:full&args=&id="
          ++ (s.GetOrganismTypeString ++ "-" ++ s.ComponentName.toLower
              ++ "--" ++ (String.intercalate "-" (camelSplit s.Name)).toLower)
          ++ "&viewMode=story" := by
  refine ⟨rfl, rfl, ?_⟩
  simp only [buildStoryURL, String.append_assoc]

/-- Helper: Go's `strings.Split` never returns an empty slice. -/
theorem goSplitChar_ne_nil (sep : Char) (l : List Char) :
    goSplitChar sep l ≠ [] := by
  induction l with
  | nil => simp [goSplitChar]
  | cons c rest ih =>
    unfold goSplitChar
    cases h : goSplitChar sep rest with
    | nil => exact absurd h ih
    | cons hd tl => by_cases hc : c = sep <;> simp [hc]

/-- C10: the `invalid path` and `invalid file name` branches of
`GetAllStories` are dead code — splitting on a separator always yields
at least one element, so the component-name derivation succeeds on
every input path. -/
theorem componentName_never_fails (p : String) :
    ∃ name, componentNameOf p = Except.ok name := by
  unfold componentNameOf
  have h1 : ¬ (goSplitChar '/' p.toList).length ≤ 0 := by
    simpa [Nat.pos_iff_ne_zero, List.length_eq_zero] using
      goSplitChar_ne_nil '/' p.toList
  have h2 : ¬ (goSplitChar '.' ((goSplitChar '/' p.toList).getLastD [])).length
      ≤ 0 := by
    simpa [Nat.pos_iff_ne_zero, List.length_eq_zero] using
      goSplitChar_ne_nil '.' ((goSplitChar '/' p.toList).getLastD [])
  simp only [h1, h2, if_false]
  exact ⟨_, rfl⟩

end Visage
